import Mathlib

/-!
Verification of `src/DaVinciTimeTracker.Core/Resolve/resolve_api.py`.

The script is a defensive sequential probe: inside a `try` block it imports
the DaVinci Resolve scripting module, obtains the application handle via
`scriptapp`, then walks `GetProjectManager`, `GetCurrentProject`,
`GetName`, printing the project name and exiting 0; any falsy handle falls
through to printing `NO_PROJECT` and exiting 1; the `except Exception`
handler prints `ERROR:` followed by the message and exits 2. On win32 the
script first re-wraps stdout and stderr, outside the `try` block.

The embedding models one invocation as a function of the behaviour of the
outside world: each external call either returns a Python value or raises
an `Exception` with a message. A Python value is modelled by what the
script can observe of it: the text `print` writes for it and the
truthiness an `if` test gives it. `sys.exit c` raises `SystemExit c`,
which is not an `Exception` subclass, so the handler lets it pass.
-/

namespace ResolveApi

/-- A Python value as the script observes it: the text `print` writes for
it, and the truthiness an `if` test gives it. -/
structure PyVal where
  str : String
  truthy : Bool
deriving DecidableEq

/-- Python `None`: prints as `None`, is falsy. -/
def pyNone : PyVal := ⟨"None", false⟩

/-- A Python string value: prints as itself, falsy exactly when empty. -/
def pyStrVal (s : String) : PyVal := ⟨s, s != ""⟩

/-- Result of one call into the outside world: either a returned value or
a raised `Exception` carrying a message. -/
inductive Lookup (α : Type) where
  | ret (v : α)
  | raise (msg : String)
deriving DecidableEq

/-- Behaviour of the integration surface during one invocation: what each
external call of `resolve_api.py` does if the script reaches it. -/
structure Surface where
  importApi : Lookup Unit
  scriptapp : Lookup PyVal
  getProjectManager : Lookup PyVal
  getCurrentProject : Lookup PyVal
  getName : Lookup PyVal
deriving DecidableEq

/-- The external calls of the script, in source order. -/
inductive Step where
  | importApi
  | scriptapp
  | getProjectManager
  | getCurrentProject
  | getName
deriving DecidableEq

/-- The source-order list of external calls: the session chain. -/
def chainOrder : List Step :=
  [.importApi, .scriptapp, .getProjectManager, .getCurrentProject, .getName]

/-- How the `try` block terminates: `sys.exit c` raises `SystemExit c`
(not an `Exception` subclass), and a surface call may raise an
`Exception` with a message. -/
inductive PyExc where
  | systemExit (code : Nat)
  | exception (msg : String)
deriving DecidableEq

/-- State when the `try` block finishes: the lines printed to stdout, the
terminating raise, and the external calls performed, in order. -/
structure BodyResult where
  out : List String
  exc : PyExc
  trace : List Step
deriving DecidableEq

/-- The `try` block of `resolve_api.py` (lines 10 to 36): import the
scripting module, obtain the application handle, and walk the nested
truthiness checks; every branch terminates by raising. -/
def tryBody (s : Surface) : BodyResult :=
  match s.importApi with
  | .raise m => ⟨[], .exception m, [.importApi]⟩
  | .ret _ =>
    match s.scriptapp with
    | .raise m => ⟨[], .exception m, [.importApi, .scriptapp]⟩
    | .ret resolve =>
      if resolve.truthy then
        match s.getProjectManager with
        | .raise m =>
            ⟨[], .exception m, [.importApi, .scriptapp, .getProjectManager]⟩
        | .ret pm =>
          if pm.truthy then
            match s.getCurrentProject with
            | .raise m =>
                ⟨[], .exception m,
                  [.importApi, .scriptapp, .getProjectManager,
                    .getCurrentProject]⟩
            | .ret project =>
              if project.truthy then
                match s.getName with
                | .raise m => ⟨[], .exception m, chainOrder⟩
                | .ret projectName =>
                    ⟨[projectName.str], .systemExit 0, chainOrder⟩
              else
                ⟨["NO_PROJECT"], .systemExit 1,
                  [.importApi, .scriptapp, .getProjectManager,
                    .getCurrentProject]⟩
          else
            ⟨["NO_PROJECT"], .systemExit 1,
              [.importApi, .scriptapp, .getProjectManager]⟩
      else
        ⟨["NO_PROJECT"], .systemExit 1, [.importApi, .scriptapp]⟩

/-- The `except Exception as e` clause (lines 37 to 39): it catches only
`Exception`; a `SystemExit` passes through and terminates the process
with its code. On a caught exception one more line is printed and the
exit code is 2. -/
def exceptExceptionHandler (b : BodyResult) : List String × Nat :=
  match b.exc with
  | .systemExit c => (b.out, c)
  | .exception m => (b.out ++ ["ERROR:" ++ m], 2)

/-- One invocation of the try/except statement: the stdout lines written
and the process exit code. -/
def runProbe (s : Surface) : List String × Nat :=
  exceptExceptionHandler (tryBody s)

/-- The tri-state outcome of the spec. -/
inductive Outcome where
  | found (name : String)
  | notFound
  | error (msg : String)
deriving DecidableEq

/-- Stdout line and exit code an outcome is rendered as (spec section 6). -/
def renderOutcome : Outcome → List String × Nat
  | .found n => ([n], 0)
  | .notFound => (["NO_PROJECT"], 1)
  | .error m => (["ERROR:" ++ m], 2)

/-- Classification of a finished invocation as one of the three
outcomes. -/
def probeOutcome (s : Surface) : Outcome :=
  match (tryBody s).exc with
  | .exception m => .error m
  | .systemExit 0 => .found ((tryBody s).out.headD "")
  | .systemExit _ => .notFound

/-- A surface on which the whole chain succeeds with the given name
value; used to instantiate theorems at concrete inputs. -/
def surfOk (n : PyVal) : Surface :=
  ⟨.ret (), .ret ⟨"Resolve", true⟩, .ret ⟨"pm", true⟩, .ret ⟨"proj", true⟩,
    .ret n⟩

/-- Behaviour of the whole invocation environment: the platform test, what
the two stream re-wrap calls do if the script reaches them (lines 5 to 8,
outside the `try` block), and the integration surface. -/
structure Env where
  isWin32 : Bool
  rewrapStdout : Lookup Unit
  rewrapStderr : Lookup Unit
  surface : Surface
deriving DecidableEq

/-- End of the process: a normal exit with its stdout lines and exit code,
or an exception that escaped the script uncaught. -/
inductive ScriptResult where
  | exited (out : List String) (code : Nat)
  | uncaught (msg : String)
deriving DecidableEq

/-- The whole script (lines 1 to 39): on win32, re-wrap stdout then stderr
with no handler around them, then run the try/except statement. -/
def runScript (e : Env) : ScriptResult :=
  if e.isWin32 then
    match e.rewrapStdout with
    | .raise m => .uncaught m
    | .ret _ =>
      match e.rewrapStderr with
      | .raise m => .uncaught m
      | .ret _ => .exited (runProbe e.surface).1 (runProbe e.surface).2
  else
    .exited (runProbe e.surface).1 (runProbe e.surface).2

/-- Helper: the try block always finishes in one of the three shapes of
`tryBody`: a single printed name with `SystemExit 0`, the `NO_PROJECT`
line with `SystemExit 1`, or no output and a pending `Exception`. -/
theorem tryBody_shape (s : Surface) :
    (∃ n, (tryBody s).out = [n] ∧ (tryBody s).exc = .systemExit 0) ∨
    ((tryBody s).out = ["NO_PROJECT"] ∧ (tryBody s).exc = .systemExit 1) ∨
    (∃ m, (tryBody s).out = [] ∧ (tryBody s).exc = .exception m) := by
  obtain ⟨i, sc, gm, gp, gn⟩ := s
  rcases i with u | im
  · rcases sc with ⟨scs, sct⟩ | scm
    · rcases sct with _ | _
      · simp [tryBody]
      · rcases gm with ⟨gms, gmt⟩ | gmm
        · rcases gmt with _ | _
          · simp [tryBody]
          · rcases gp with ⟨gps, gpt⟩ | gpm
            · rcases gpt with _ | _
              · simp [tryBody]
              · rcases gn with gnv | gnm
                · simp [tryBody]
                · simp [tryBody]
            · simp [tryBody]
        · simp [tryBody]
    · simp [tryBody]
  · simp [tryBody]

/-- C1: for every behaviour of the integration surface, one invocation is
the rendering of exactly one of the three outcomes: exactly one line on
stdout and an exit code that is 0, 1 or 2. -/
theorem probe_exactly_one_outcome (s : Surface) :
    runProbe s = renderOutcome (probeOutcome s) ∧
    (runProbe s).1.length = 1 ∧
    ((runProbe s).2 = 0 ∨ (runProbe s).2 = 1 ∨ (runProbe s).2 = 2) := by
  rcases tryBody_shape s with ⟨n, ho, he⟩ | ⟨ho, he⟩ | ⟨m, ho, he⟩ <;>
    simp [runProbe, exceptExceptionHandler, probeOutcome, renderOutcome,
      ho, he]

/-- C2 counterexample: with every handle present and `GetName` returning
`None`, the script prints `None` and exits 0 — not the `NotFound`
outcome the claim requires for a null name. -/
theorem null_name_prints_none_cex :
    runProbe (surfOk pyNone) = (["None"], 0) ∧
    runProbe (surfOk pyNone) ≠ (["NO_PROJECT"], 1) := by
  refine ⟨rfl, by decide⟩

/-- C2 amended: while walking manager → project an explicit null signal
short-circuits to `NotFound` (stdout `NO_PROJECT`, exit code 1), but the
name lookup is not guarded: a null name is printed through its textual
representation `None` with exit code 0. -/
theorem chain_null_rule_amended (s : Surface) (rv : PyVal)
    (hi : s.importApi = .ret ()) (hsc : s.scriptapp = .ret rv)
    (hrt : rv.truthy = true) :
    (s.getProjectManager = .ret pyNone → runProbe s = (["NO_PROJECT"], 1)) ∧
    (∀ pv, s.getProjectManager = .ret pv → pv.truthy = true →
      s.getCurrentProject = .ret pyNone → runProbe s = (["NO_PROJECT"], 1)) ∧
    (∀ pv cv, s.getProjectManager = .ret pv → pv.truthy = true →
      s.getCurrentProject = .ret cv → cv.truthy = true →
      s.getName = .ret pyNone → runProbe s = (["None"], 0)) := by
  refine ⟨?_, ?_, ?_⟩
  · intro h
    simp [runProbe, tryBody, exceptExceptionHandler, hi, hsc, hrt, h, pyNone]
  · intro pv hpm hpt h
    simp [runProbe, tryBody, exceptExceptionHandler, hi, hsc, hrt, hpm, hpt,
      h, pyNone]
  · intro pv cv hpm hpt hcp hct h
    simp [runProbe, tryBody, exceptExceptionHandler, hi, hsc, hrt, hpm, hpt,
      hcp, hct, h, pyNone]

/-- C2 amended, instantiated: a null project manager yields `NO_PROJECT`
and exit code 1. -/
theorem chain_null_rule_amended_witness :
    runProbe ⟨.ret (), .ret ⟨"Resolve", true⟩, .ret pyNone, .ret pyNone,
      .ret pyNone⟩ = (["NO_PROJECT"], 1) :=
  (chain_null_rule_amended _ ⟨"Resolve", true⟩ rfl rfl rfl).1 rfl

/-- C3: when every handle is present and `GetName` returns the string
`name`, the script prints exactly `name` and exits 0; this is never the
`NotFound` rendering. -/
theorem found_prints_name (s : Surface) (rv pv cv : PyVal) (name : String)
    (hi : s.importApi = .ret ()) (hsc : s.scriptapp = .ret rv)
    (hrt : rv.truthy = true)
    (hpm : s.getProjectManager = .ret pv) (hpt : pv.truthy = true)
    (hcp : s.getCurrentProject = .ret cv) (hct : cv.truthy = true)
    (hn : s.getName = .ret (pyStrVal name)) :
    runProbe s = ([name], 0) ∧ runProbe s ≠ (["NO_PROJECT"], 1) := by
  have h : runProbe s = ([name], 0) := by
    simp [runProbe, tryBody, exceptExceptionHandler, hi, hsc, hrt, hpm, hpt,
      hcp, hct, hn, pyStrVal]
  exact ⟨h, by simp [h]⟩

/-- C3, instantiated at the empty name: stdout is exactly one empty line
and the exit code is 0, distinguished from `NotFound`. -/
theorem found_prints_name_witness :
    runProbe (surfOk (pyStrVal "")) = ([""], 0) ∧
    runProbe (surfOk (pyStrVal "")) ≠ (["NO_PROJECT"], 1) :=
  found_prints_name (surfOk (pyStrVal "")) ⟨"Resolve", true⟩ ⟨"pm", true⟩
    ⟨"proj", true⟩ "" rfl rfl rfl rfl rfl rfl rfl rfl

/-- C4 counterexample: the stream re-wrapping runs outside the `try`
block, so on win32 an exception raised while re-wrapping stdout escapes
the script uncaught instead of becoming one of the three outcomes. -/
theorem rewrap_exception_escapes_cex :
    runScript ⟨true, .raise "sys.stdout has no attribute buffer", .ret (),
        surfOk (pyStrVal "MyProject")⟩
      = .uncaught "sys.stdout has no attribute buffer" := rfl

/-- C4 amended: every exception raised by the integration surface is
caught at the try/except boundary, so whenever the startup stream
re-encoding itself does not raise (it runs outside that boundary), the
process exits normally with one of the three outcomes and exit code 0, 1
or 2. -/
theorem surface_exceptions_contained (e : Env)
    (h : e.isWin32 = false ∨
      (e.rewrapStdout = .ret () ∧ e.rewrapStderr = .ret ())) :
    runScript e = .exited (runProbe e.surface).1 (runProbe e.surface).2 ∧
    ((runProbe e.surface).2 = 0 ∨ (runProbe e.surface).2 = 1 ∨
      (runProbe e.surface).2 = 2) := by
  constructor
  · rcases h with h | ⟨h1, h2⟩
    · simp [runScript, h]
    · simp [runScript, h1, h2]
  · rcases tryBody_shape e.surface with ⟨n, ho, he⟩ | ⟨ho, he⟩ | ⟨m, ho, he⟩ <;>
      simp [runProbe, exceptExceptionHandler, ho, he]

/-- C4 amended, instantiated off win32: the script exits normally with
the printed name and exit code 0. -/
theorem surface_exceptions_contained_witness :
    runScript ⟨false, .ret (), .ret (), surfOk (pyStrVal "MyProject")⟩
      = .exited ["MyProject"] 0 :=
  ((surface_exceptions_contained
    ⟨false, .ret (), .ret (), surfOk (pyStrVal "MyProject")⟩
    (Or.inl rfl)).1).trans rfl

/-- C5: when importing the scripting module raises, the script prints the
single line `ERROR:` plus the message, exits 2, and invokes no chain
lookup: the trace contains only the import. -/
theorem acquisition_failure_immediate_error (s : Surface) (m : String)
    (h : s.importApi = .raise m) :
    runProbe s = (["ERROR:" ++ m], 2) ∧
    (tryBody s).trace = [Step.importApi] := by
  refine ⟨?_, ?_⟩ <;> simp [runProbe, tryBody, exceptExceptionHandler, h]

/-- C5, instantiated at a failing import. -/
theorem acquisition_failure_immediate_error_witness :
    runProbe ⟨.raise "No module named DaVinciResolveScript", .ret pyNone,
        .ret pyNone, .ret pyNone, .ret pyNone⟩
      = (["ERROR:" ++ "No module named DaVinciResolveScript"], 2) ∧
    (tryBody ⟨.raise "No module named DaVinciResolveScript", .ret pyNone,
        .ret pyNone, .ret pyNone, .ret pyNone⟩).trace = [Step.importApi] :=
  acquisition_failure_immediate_error _ "No module named DaVinciResolveScript"
    rfl

/-- C6: when the surface is acquired but `scriptapp` returns a null
(falsy) application handle, the outcome is `NO_PROJECT` with exit code 1,
never the error exit code 2. -/
theorem null_app_handle_not_found (s : Surface) (rv : PyVal)
    (hi : s.importApi = .ret ()) (hsc : s.scriptapp = .ret rv)
    (hrt : rv.truthy = false) :
    runProbe s = (["NO_PROJECT"], 1) ∧ (runProbe s).2 ≠ 2 := by
  have h : runProbe s = (["NO_PROJECT"], 1) := by
    simp [runProbe, tryBody, exceptExceptionHandler, hi, hsc, hrt]
  exact ⟨h, by simp [h]⟩

/-- C6, instantiated at a `None` application handle. -/
theorem null_app_handle_not_found_witness :
    runProbe ⟨.ret (), .ret pyNone, .ret pyNone, .ret pyNone, .ret pyNone⟩
      = (["NO_PROJECT"], 1) ∧
    (runProbe ⟨.ret (), .ret pyNone, .ret pyNone, .ret pyNone,
      .ret pyNone⟩).2 ≠ 2 :=
  null_app_handle_not_found _ pyNone rfl rfl rfl

/-- C7: an exception raised at any reached step of the chain makes the
script print exactly `ERROR:` plus that message and exit 2. -/
theorem traversal_exception_error (s : Surface) (m : String) :
    (s.importApi = .ret () → s.scriptapp = .raise m →
      runProbe s = (["ERROR:" ++ m], 2)) ∧
    (∀ rv, s.importApi = .ret () → s.scriptapp = .ret rv →
      rv.truthy = true → s.getProjectManager = .raise m →
      runProbe s = (["ERROR:" ++ m], 2)) ∧
    (∀ rv pv, s.importApi = .ret () → s.scriptapp = .ret rv →
      rv.truthy = true → s.getProjectManager = .ret pv →
      pv.truthy = true → s.getCurrentProject = .raise m →
      runProbe s = (["ERROR:" ++ m], 2)) ∧
    (∀ rv pv cv, s.importApi = .ret () → s.scriptapp = .ret rv →
      rv.truthy = true → s.getProjectManager = .ret pv →
      pv.truthy = true → s.getCurrentProject = .ret cv →
      cv.truthy = true → s.getName = .raise m →
      runProbe s = (["ERROR:" ++ m], 2)) := by
  refine ⟨?_, ?_, ?_, ?_⟩
  · intro hi h
    simp [runProbe, tryBody, exceptExceptionHandler, hi, h]
  · intro rv hi hsc hrt h
    simp [runProbe, tryBody, exceptExceptionHandler, hi, hsc, hrt, h]
  · intro rv pv hi hsc hrt hpm hpt h
    simp [runProbe, tryBody, exceptExceptionHandler, hi, hsc, hrt, hpm, hpt, h]
  · intro rv pv cv hi hsc hrt hpm hpt hcp hct h
    simp [runProbe, tryBody, exceptExceptionHandler, hi, hsc, hrt, hpm, hpt,
      hcp, hct, h]

/-- C7, instantiated: `GetName` raising with message `timeout` yields
stdout exactly `ERROR:timeout` and exit code 2. -/
theorem traversal_exception_error_witness :
    runProbe ⟨.ret (), .ret ⟨"Resolve", true⟩, .ret ⟨"pm", true⟩,
      .ret ⟨"proj", true⟩, .raise "timeout"⟩ = (["ERROR:" ++ "timeout"], 2) :=
  (traversal_exception_error _ "timeout").2.2.2 ⟨"Resolve", true⟩
    ⟨"pm", true⟩ ⟨"proj", true⟩ rfl rfl rfl rfl rfl rfl rfl rfl

/-- C8: the invoked calls always form a source-order segment of the
chain, and once a step raised or returned a falsy handle no later step
appears in the trace. -/
theorem chain_strictly_sequential (s : Surface) :
    (tryBody s).trace = chainOrder.take (tryBody s).trace.length ∧
    (∀ m, s.importApi = .raise m → (tryBody s).trace = [Step.importApi]) ∧
    (∀ m, s.scriptapp = .raise m →
      Step.getProjectManager ∉ (tryBody s).trace) ∧
    (∀ v, s.scriptapp = .ret v → v.truthy = false →
      Step.getProjectManager ∉ (tryBody s).trace) ∧
    (∀ m, s.getProjectManager = .raise m →
      Step.getCurrentProject ∉ (tryBody s).trace) ∧
    (∀ v, s.getProjectManager = .ret v → v.truthy = false →
      Step.getCurrentProject ∉ (tryBody s).trace) ∧
    (∀ m, s.getCurrentProject = .raise m →
      Step.getName ∉ (tryBody s).trace) ∧
    (∀ v, s.getCurrentProject = .ret v → v.truthy = false →
      Step.getName ∉ (tryBody s).trace) := by
  obtain ⟨i, sc, gm, gp, gn⟩ := s
  rcases i with u | im
  · rcases sc with ⟨scs, sct⟩ | scm
    · rcases sct with _ | _
      · simp [tryBody, chainOrder]
      · rcases gm with ⟨gms, gmt⟩ | gmm
        · rcases gmt with _ | _
          · simp [tryBody, chainOrder]
          · rcases gp with ⟨gps, gpt⟩ | gpm
            · rcases gpt with _ | _
              · simp [tryBody, chainOrder]
              · rcases gn with gnv | gnm
                · simp [tryBody, chainOrder]
                · simp [tryBody, chainOrder]
            · simp [tryBody, chainOrder]
        · simp [tryBody, chainOrder]
    · simp [tryBody, chainOrder]
  · simp [tryBody, chainOrder]

/-- C8, instantiated: when `GetProjectManager` raises, `GetCurrentProject`
is never invoked. -/
theorem chain_strictly_sequential_witness :
    Step.getCurrentProject ∉
      (tryBody ⟨.ret (), .ret ⟨"Resolve", true⟩, .raise "host gone",
        .ret pyNone, .ret pyNone⟩).trace :=
  (chain_strictly_sequential
    ⟨.ret (), .ret ⟨"Resolve", true⟩, .raise "host gone", .ret pyNone,
      .ret pyNone⟩).2.2.2.2.1 "host gone" rfl

/-- C9: a falsy value returned at the application, manager or project
step — null or any other value whose truthiness test fails — yields
`NO_PROJECT` with exit code 1 and skips every remaining step. -/
theorem falsy_handle_not_found (s : Surface) :
    (∀ v, s.importApi = .ret () → s.scriptapp = .ret v → v.truthy = false →
      runProbe s = (["NO_PROJECT"], 1) ∧
      (tryBody s).trace = [Step.importApi, Step.scriptapp]) ∧
    (∀ r v, s.importApi = .ret () → s.scriptapp = .ret r →
      r.truthy = true → s.getProjectManager = .ret v → v.truthy = false →
      runProbe s = (["NO_PROJECT"], 1) ∧
      (tryBody s).trace =
        [Step.importApi, Step.scriptapp, Step.getProjectManager]) ∧
    (∀ r p v, s.importApi = .ret () → s.scriptapp = .ret r →
      r.truthy = true → s.getProjectManager = .ret p → p.truthy = true →
      s.getCurrentProject = .ret v → v.truthy = false →
      runProbe s = (["NO_PROJECT"], 1) ∧
      (tryBody s).trace =
        [Step.importApi, Step.scriptapp, Step.getProjectManager,
          Step.getCurrentProject]) := by
  refine ⟨?_, ?_, ?_⟩
  · intro v hi hsc ht
    constructor <;>
      simp [runProbe, tryBody, exceptExceptionHandler, hi, hsc, ht]
  · intro r v hi hsc hrt hpm ht
    constructor <;>
      simp [runProbe, tryBody, exceptExceptionHandler, hi, hsc, hrt, hpm, ht]
  · intro r p v hi hsc hrt hpm hpt hcp ht
    constructor <;>
      simp [runProbe, tryBody, exceptExceptionHandler, hi, hsc, hrt, hpm,
        hpt, hcp, ht]

/-- C9, instantiated at a falsy value that is not null: an empty-string
application handle still yields `NO_PROJECT` and exit code 1, with the
later steps skipped. -/
theorem falsy_handle_not_found_witness :
    runProbe ⟨.ret (), .ret (pyStrVal ""), .ret ⟨"pm", true⟩,
      .ret ⟨"proj", true⟩, .ret (pyStrVal "MyProject")⟩
      = (["NO_PROJECT"], 1) ∧
    (tryBody ⟨.ret (), .ret (pyStrVal ""), .ret ⟨"pm", true⟩,
      .ret ⟨"proj", true⟩, .ret (pyStrVal "MyProject")⟩).trace
      = [Step.importApi, Step.scriptapp] :=
  (falsy_handle_not_found _).1 (pyStrVal "") rfl rfl rfl

/-- C10: on the success path the `try` block terminates by raising
`SystemExit 0`; the `except Exception` handler does not intercept it, so
the exit code is 0 and is never converted to the error exit code 2. -/
theorem success_exit_not_intercepted (s : Surface) (rv pv cv nv : PyVal)
    (hi : s.importApi = .ret ()) (hsc : s.scriptapp = .ret rv)
    (hrt : rv.truthy = true)
    (hpm : s.getProjectManager = .ret pv) (hpt : pv.truthy = true)
    (hcp : s.getCurrentProject = .ret cv) (hct : cv.truthy = true)
    (hn : s.getName = .ret nv) :
    (tryBody s).exc = .systemExit 0 ∧
    runProbe s = ([nv.str], 0) ∧ (runProbe s).2 ≠ 2 := by
  have he : (tryBody s).exc = .systemExit 0 := by
    simp [tryBody, hi, hsc, hrt, hpm, hpt, hcp, hct, hn]
  have h : runProbe s = ([nv.str], 0) := by
    simp [runProbe, tryBody, exceptExceptionHandler, hi, hsc, hrt, hpm, hpt,
      hcp, hct, hn]
  exact ⟨he, h, by simp [h]⟩

/-- C10, instantiated at a resolving chain. -/
theorem success_exit_not_intercepted_witness :
    (tryBody (surfOk (pyStrVal "MyProject"))).exc = PyExc.systemExit 0 ∧
    runProbe (surfOk (pyStrVal "MyProject")) = (["MyProject"], 0) ∧
    (runProbe (surfOk (pyStrVal "MyProject"))).2 ≠ 2 :=
  success_exit_not_intercepted _ ⟨"Resolve", true⟩ ⟨"pm", true⟩
    ⟨"proj", true⟩ (pyStrVal "MyProject") rfl rfl rfl rfl rfl rfl rfl rfl

end ResolveApi
